import Mathlib

/-!
# Verification of `celery/app/defaults.py`

A shallow embedding of the configuration-schema module: the `Option`
descriptor with its coercion table (`typemap`, `to_python`), the namespace
tree `NAMESPACES`, the breadth-first `flatten`, the derived `DEFAULTS`
table, the deprecation scan `find_deprecated_settings`, and the resolver
`find` with its fallback strategies.

Python dictionaries are embedded as association lists in declaration
order (first-match lookup); Python exceptions (`KeyError`, `TypeError`,
`ValueError`) become an explicit error type threaded through `Except`.
The class `Option` is called `Opt` here because `Option` is taken by the
Lean prelude; `searchresult.namespace` is called `ns` because `namespace`
is a Lean keyword.
-/

/-- Embedded Python configuration values: the value shapes occurring as
defaults and coercion results in the module (`None`, strings, ints,
floats, bools, lists, tuples, string-keyed dicts, and the one
`timedelta(days=1)` default). Floats are represented as rationals; every
float literal in the module is decimal. -/
inductive ConfValue where
  | none
  | str (s : String)
  | int (n : Int)
  | float (q : Rat)
  | bool (b : Bool)
  | list (xs : List ConfValue)
  | tuple (xs : List ConfValue)
  | dict (xs : List (String × ConfValue))
  | timedelta (days : Nat)

/-- Embedded Python exceptions raised by this module: `KeyError` (a missing
dictionary key — the "NotFoundError" of the spec when it escapes `find`,
and the error escaping `to_python` on a type tag missing from `typemap`),
`TypeError` (e.g. subscripting an `Option` object, or a coercion applied
to an unconvertible value), and `ValueError` (failed numeric parse). -/
inductive PyErr where
  | keyError
  | typeError
  | valueError
deriving DecidableEq

/-- The `Option` class (named `Opt`: `Option` is taken by Lean): a typed
default-value holder.  `__init__` stores the positional `default`
(`None` when omitted), sets `type` from the `type` keyword argument
(falling back to `'string'`), and stores the remaining recognised keyword
arguments over the class-level defaults `alt = deprecate_by = remove_by
= None`.  The open-ended `setattr` loop is embedded as this fixed record:
the schema in this module only ever passes these attributes. -/
structure Opt where
  default : ConfValue
  type : String
  alt : Option String
  deprecate_by : Option String
  remove_by : Option String

/-- `Option(default, type=t)` with no deprecation attributes — the form
every entry of `NAMESPACES` uses. -/
def mkOpt (d : ConfValue) (t : String) : Opt :=
  { default := d, type := t, alt := none, deprecate_by := none, remove_by := none }

/-- Python `str.lower()` restricted to ASCII (every name in the schema is
ASCII): lower-case each character. -/
def lower (s : String) : String :=
  String.mk (s.data.map Char.toLower)

/-- `Char.ofNat n` for a valid (< 0xD800) codepoint decodes back to `n`. -/
theorem toNat_ofNat_of_lt {n : Nat} (h : n < 55296) : (Char.ofNat n).toNat = n := by
  have hv : n.isValidChar := Or.inl h
  simp only [Char.ofNat, hv, dite_true]
  rfl

/-- ASCII lower-casing of a character is idempotent. -/
theorem char_toLower_idem (c : Char) : c.toLower.toLower = c.toLower := by
  by_cases h : c.toNat ≥ 65 ∧ c.toNat ≤ 90
  · have h1 : c.toLower = Char.ofNat (c.toNat + 32) := by
      simp only [Char.toLower]
      rw [if_pos h]
    have h2 : (Char.ofNat (c.toNat + 32)).toNat = c.toNat + 32 :=
      toNat_ofNat_of_lt (by omega)
    rw [h1]
    simp only [Char.toLower]
    rw [h2, if_neg (by omega)]
  · have h1 : c.toLower = c := by
      simp only [Char.toLower]
      rw [if_neg h]
    rw [h1, h1]

/-- `s.lower().lower() == s.lower()`. -/
theorem lower_idem (s : String) : lower (lower s) = lower s := by
  simp only [lower, List.map_map]
  exact congrArg String.mk (List.map_congr_left fun c _ => char_toLower_idem c)

/-- First-match lookup in an association list: `d[k]` on an embedded
Python dict, `none` standing for the `KeyError` case. -/
def assocFind {α : Type} (k : String) : List (String × α) → Option α
  | [] => Option.none
  | p :: ps => if p.1 = k then Option.some p.2 else assocFind k ps

/-- Python `str(v)`: strings pass through; other values get a canonical
rendering.  Container and timedelta renderings are abbreviated — nothing
in the module observes them ( `str` never fails ). -/
def pyStrRender : ConfValue → String
  | .none => "None"
  | .str s => s
  | .int n => toString n
  | .float q => toString q
  | .bool true => "True"
  | .bool false => "False"
  | .list _ => "<list>"
  | .tuple _ => "<tuple>"
  | .dict _ => "<dict>"
  | .timedelta d => toString d ++ " days, 0:00:00"

/-- The `string` coercion (`str`). -/
def pyString (v : ConfValue) : Except PyErr ConfValue :=
  .ok (.str (pyStrRender v))

/-- The `int` coercion (`int`): ints pass through, bools become 0/1,
strings are parsed as decimal integers (`ValueError` on failure), floats
truncate toward zero; other values raise `TypeError`. -/
def pyInt : ConfValue → Except PyErr ConfValue
  | .int n => .ok (.int n)
  | .bool b => .ok (.int (if b then 1 else 0))
  | .str s =>
    match s.toInt? with
    | Option.some n => .ok (.int n)
    | Option.none => .error .valueError
  | .float q => .ok (.int (if q < 0 then -((-q).floor) else q.floor))
  | _ => .error .typeError

/-- Parse a decimal float literal (optional sign, digits, optional
fractional part).  Python `float()` also accepts exponents and special
spellings; no value in the module uses them. -/
def parseDecimal (s : String) : Option Rat :=
  match s.split (· = '.') with
  | [a] => a.toInt?.map fun n => (n : Rat)
  | [a, b] =>
    match a.toInt?, b.toNat? with
    | Option.some n, Option.some f =>
      let mag : Rat := (n.natAbs : Rat) + (f : Rat) / ((10 : Rat) ^ b.length)
      Option.some (if a.startsWith "-" then -mag else mag)
    | _, _ => Option.none
  | _ => Option.none

/-- The `float` coercion (`float`). -/
def pyFloat : ConfValue → Except PyErr ConfValue
  | .float q => .ok (.float q)
  | .int n => .ok (.float n)
  | .bool b => .ok (.float (if b then 1 else 0))
  | .str s =>
    match parseDecimal s with
    | Option.some q => .ok (.float q)
    | Option.none => .error .valueError
  | _ => .error .typeError

/-- Modelled from the spec: `celery.utils.strtobool` is imported from a
file that is not under `src/`.  Per the spec it is a "boolean-string
parser (accepts canonical true/false token spellings, case-insensitive,
fails otherwise)"; accepted spellings include the numeric tokens the
spec's test section mentions.  A value that is already a boolean passes
through; anything else fails. -/
def strtobool : ConfValue → Except PyErr ConfValue
  | .str s =>
    if lower s = "true" ∨ lower s = "yes" ∨ lower s = "1" then .ok (.bool true)
    else if lower s = "false" ∨ lower s = "no" ∨ lower s = "0" then .ok (.bool false)
    else .error .typeError
  | .bool b => .ok (.bool b)
  | _ => .error .typeError

/-- The `dict` coercion (`dict`): a dict passes through.  (Python `dict()`
also accepts iterables of key/value pairs; no schema value uses that.) -/
def pyDict : ConfValue → Except PyErr ConfValue
  | .dict d => .ok (.dict d)
  | _ => .error .typeError

/-- The `tuple` coercion (`tuple`): any embedded iterable becomes a tuple
of its elements (a dict yields its keys, a string its characters). -/
def pyTuple : ConfValue → Except PyErr ConfValue
  | .tuple xs => .ok (.tuple xs)
  | .list xs => .ok (.tuple xs)
  | .dict d => .ok (.tuple (d.map fun p => .str p.1))
  | .str s => .ok (.tuple (s.data.map fun c => .str (String.mk [c])))
  | _ => .error .typeError

/-- `Option.typemap`: the fixed coercion table, in its literal key order
`dict(string=str, int=int, float=float, any=λ v. v, bool=strtobool,
dict=dict, tuple=tuple)`.  Note: no `list` (and no `str`) key. -/
def typemap : List (String × (ConfValue → Except PyErr ConfValue)) :=
  [("string", pyString), ("int", pyInt), ("float", pyFloat),
   ("any", fun v => .ok v), ("bool", strtobool),
   ("dict", pyDict), ("tuple", pyTuple)]

/-- `Option.to_python(value)`: `self.typemap[self.type](value)` — a type
tag absent from `typemap` raises `KeyError`. -/
def Opt.to_python (o : Opt) (value : ConfValue) : Except PyErr ConfValue :=
  match assocFind o.type typemap with
  | Option.some f => f value
  | Option.none => .error .keyError

/-- An entry of the namespace tree: either a bare top-level `Option`
(a flat, unnamespaced setting) or a nested `{key → Option}` mapping
(a namespace).  The source `flatten` walks arbitrarily nested dicts, but
the tree this module declares — and the only shape the resolver supports,
per the spec — is exactly two levels deep. -/
inductive NsEntry where
  | opt (o : Opt)
  | sub (m : List (String × Opt))

/-- `DEFAULT_POOL`: `'prefork'` on CPython (the `is_jython` / `is_pypy`
platform probes are modelled as false). -/
def DEFAULT_POOL : String := "prefork"

/-- `DEFAULT_ACCEPT_CONTENT`. -/
def DEFAULT_ACCEPT_CONTENT : ConfValue :=
  .list [.str "json", .str "pickle", .str "msgpack", .str "yaml"]

/-- `DEFAULT_PROCESS_LOG_FMT` (after `.strip()`). -/
def DEFAULT_PROCESS_LOG_FMT : String :=
  "[%(asctime)s: %(levelname)s/%(processName)s] %(message)s"

/-- `DEFAULT_LOG_FMT`. -/
def DEFAULT_LOG_FMT : String := "[%(asctime)s: %(levelname)s] %(message)s"

/-- `DEFAULT_TASK_LOG_FMT`. -/
def DEFAULT_TASK_LOG_FMT : String :=
  "[%(asctime)s: %(levelname)s/%(processName)s] %(task_name)s[%(task_id)s]: %(message)s"

/-- `NAMESPACES['accept_content']`: `Option(DEFAULT_ACCEPT_CONTENT, type='list')`. -/
def accept_content_opt : Opt := mkOpt DEFAULT_ACCEPT_CONTENT "list"

/-- `NAMESPACES['timezone']`: `Option(type='string')`. -/
def timezone_opt : Opt := mkOpt .none "string"

/-- `NAMESPACES['broker']['url']`: `Option(None, type='string')`. -/
def broker_url_opt : Opt := mkOpt .none "string"

/-- `NAMESPACES['result']['compression']`: `Option(type='str')` — note the
misspelled type tag `'str'`, which is not a `typemap` key. -/
def result_compression_opt : Opt := mkOpt .none "str"

/-- The `'beat'` namespace. -/
def beat_ns : List (String × Opt) :=
  [("schedule", mkOpt (.dict []) "dict"),
   ("scheduler", mkOpt (.str "celery.beat:PersistentScheduler") "string"),
   ("schedule_filename", mkOpt (.str "celerybeat-schedule") "string"),
   ("sync_every", mkOpt (.int 0) "int"),
   ("max_loop_interval", mkOpt (.int 0) "float")]

/-- The `'broker'` namespace. -/
def broker_ns : List (String × Opt) :=
  [("url", broker_url_opt),
   ("connection_timeout", mkOpt (.int 4) "float"),
   ("connection_retry", mkOpt (.bool true) "bool"),
   ("connection_max_retries", mkOpt (.int 100) "int"),
   ("failover_strategy", mkOpt .none "string"),
   ("heartbeat", mkOpt .none "int"),
   ("heartbeat_checkrate", mkOpt (.float 3) "int"),
   ("login_method", mkOpt .none "string"),
   ("pool_limit", mkOpt (.int 10) "int"),
   ("use_ssl", mkOpt (.bool false) "bool"),
   ("transport", mkOpt .none "string"),
   ("transport_options", mkOpt (.dict []) "dict"),
   ("host", mkOpt .none "string"),
   ("port", mkOpt .none "int"),
   ("user", mkOpt .none "string"),
   ("password", mkOpt .none "string"),
   ("vhost", mkOpt .none "string")]

/-- The `'cache'` namespace. -/
def cache_ns : List (String × Opt) :=
  [("backend", mkOpt .none "string"),
   ("backend_options", mkOpt (.dict []) "dict")]

/-- The `'cassandra'` namespace. -/
def cassandra_ns : List (String × Opt) :=
  [("column_family", mkOpt .none "string"),
   ("detailed_mode", mkOpt (.bool false) "bool"),
   ("keyspace", mkOpt .none "string"),
   ("read_consistency", mkOpt .none "string"),
   ("servers", mkOpt .none "list"),
   ("port", mkOpt .none "string"),
   ("entry_ttl", mkOpt .none "float"),
   ("write_consistency", mkOpt .none "string")]

/-- The `'chord'` namespace. -/
def chord_ns : List (String × Opt) :=
  [("propagates", mkOpt (.bool true) "bool")]

/-- The `'couchbase'` namespace. -/
def couchbase_ns : List (String × Opt) :=
  [("backend_settings", mkOpt .none "dict")]

/-- The `'email'` namespace. -/
def email_ns : List (String × Opt) :=
  [("host", mkOpt (.str "localhost") "string"),
   ("port", mkOpt (.int 25) "int"),
   ("host_user", mkOpt .none "string"),
   ("host_password", mkOpt .none "string"),
   ("timeout", mkOpt (.int 2) "float"),
   ("use_ssl", mkOpt (.bool false) "bool"),
   ("use_tls", mkOpt (.bool false) "bool"),
   ("charset", mkOpt (.str "us-ascii") "string")]

/-- The `'mongodb'` namespace. -/
def mongodb_ns : List (String × Opt) :=
  [("backend_settings", mkOpt .none "dict")]

/-- The `'event'` namespace. -/
def event_ns : List (String × Opt) :=
  [("serializer", mkOpt (.str "json") "string"),
   ("queue_expires", mkOpt (.float 60) "float"),
   ("queue_ttl", mkOpt (.float 5) "float")]

/-- The `'redis'` namespace. -/
def redis_ns : List (String × Opt) :=
  [("db", mkOpt .none "int"),
   ("host", mkOpt .none "string"),
   ("max_connections", mkOpt .none "int"),
   ("password", mkOpt .none "string"),
   ("port", mkOpt .none "int")]

/-- The `'result'` namespace. -/
def result_ns : List (String × Opt) :=
  [("backend", mkOpt .none "string"),
   ("cache_max", mkOpt (.int 100) "int"),
   ("compression", result_compression_opt),
   ("exchange", mkOpt (.str "celeryresults") "string"),
   ("exchange_type", mkOpt (.str "direct") "string"),
   ("persistent", mkOpt .none "bool"),
   ("expires", mkOpt (.timedelta 1) "float"),
   ("serializer", mkOpt (.str "json") "string")]

/-- The `'riak'` namespace. -/
def riak_ns : List (String × Opt) :=
  [("backend_settings", mkOpt .none "dict")]

/-- The `'security'` namespace. -/
def security_ns : List (String × Opt) :=
  [("key", mkOpt .none "string"),
   ("certificate", mkOpt .none "string"),
   ("cert_store", mkOpt .none "string")]

/-- The `'sqlalchemy'` namespace. -/
def sqlalchemy_ns : List (String × Opt) :=
  [("short_lived_sessions", mkOpt (.bool false) "bool"),
   ("table_names", mkOpt .none "dict"),
   ("dburi", mkOpt .none "string"),
   ("engine_options", mkOpt .none "dict")]

/-- The `'task'` namespace. -/
def task_ns : List (String × Opt) :=
  [("acks_late", mkOpt (.bool false) "bool"),
   ("always_eager", mkOpt (.bool false) "bool"),
   ("annotations", mkOpt .none "any"),
   ("create_missing_queues", mkOpt (.bool true) "bool"),
   ("default_rate_limit", mkOpt .none "string"),
   ("default_routing_key", mkOpt (.str "celery") "string"),
   ("default_queue", mkOpt (.str "celery") "string"),
   ("default_exchange", mkOpt (.str "celery") "string"),
   ("default_exchange_type", mkOpt (.str "direct") "string"),
   ("default_delivery_mode", mkOpt (.int 2) "string"),
   ("eager_propagates_exceptions", mkOpt (.bool false) "bool"),
   ("ignore_result", mkOpt (.bool false) "bool"),
   ("compression", mkOpt .none "string"),
   ("reject_on_worker_lost", mkOpt .none "bool"),
   ("routes", mkOpt .none "any"),
   ("send_error_emails", mkOpt (.bool false) "bool"),
   ("send_sent_event", mkOpt (.bool false) "bool"),
   ("store_errors_even_if_ignored", mkOpt (.bool false) "bool"),
   ("protocol", mkOpt (.int 1) "int"),
   ("publish_retry", mkOpt (.bool true) "bool"),
   ("publish_retry_policy", mkOpt (.dict
      [("max_retries", .int 3),
       ("interval_start", .int 0),
       ("interval_max", .int 1),
       ("interval_step", .float (2 / 10))]) "dict"),
   ("serializer", mkOpt (.str "json") "string"),
   ("soft_time_limit", mkOpt .none "float"),
   ("time_limit", mkOpt .none "float"),
   ("track_started", mkOpt (.bool false) "bool"),
   ("queues", mkOpt .none "dict"),
   ("queue_ha_policy", mkOpt .none "string"),
   ("queue_max_priority", mkOpt .none "int")]

/-- The `'worker'` namespace. -/
def worker_ns : List (String × Opt) :=
  [("agent", mkOpt .none "string"),
   ("autoscaler", mkOpt (.str "celery.worker.autoscale:Autoscaler") "string"),
   ("autoreloader", mkOpt (.str "celery.worker.autoreload:Autoreloader") "string"),
   ("concurrency", mkOpt (.int 0) "int"),
   ("disable_rate_limits", mkOpt (.bool false) "bool"),
   ("timer", mkOpt .none "string"),
   ("timer_precision", mkOpt (.float 1) "float"),
   ("force_execv", mkOpt (.bool false) "bool"),
   ("hijack_root_logger", mkOpt (.bool true) "bool"),
   ("consumer", mkOpt (.str "celery.worker.consumer:Consumer") "string"),
   ("enable_remote_control", mkOpt (.bool true) "bool"),
   ("log_format", mkOpt (.str DEFAULT_PROCESS_LOG_FMT) "string"),
   ("log_color", mkOpt .none "bool"),
   ("max_tasks_per_child", mkOpt .none "int"),
   ("pool", mkOpt (.str DEFAULT_POOL) "string"),
   ("pool_putlocks", mkOpt (.bool true) "bool"),
   ("pool_restarts", mkOpt (.bool false) "bool"),
   ("prefetch_multiplier", mkOpt (.int 4) "int"),
   ("send_events", mkOpt (.bool false) "bool"),
   ("state_db", mkOpt .none "string"),
   ("task_log_format", mkOpt (.str DEFAULT_TASK_LOG_FMT) "string"),
   ("redirect_stdouts", mkOpt (.bool true) "bool"),
   ("redirect_stdouts_level", mkOpt (.str "WARNING") "string"),
   ("direct", mkOpt (.bool false) "bool"),
   ("lost_wait", mkOpt (.float 10) "float")]

/-- `NAMESPACES`, in declaration order. -/
def NAMESPACES : List (String × NsEntry) :=
  [("accept_content", .opt accept_content_opt),
   ("admins", .opt (mkOpt (.tuple []) "tuple")),
   ("enable_utc", .opt (mkOpt (.bool true) "bool")),
   ("imports", .opt (mkOpt (.tuple []) "tuple")),
   ("include", .opt (mkOpt (.tuple []) "tuple")),
   ("server_email", .opt (mkOpt (.str "celery@localhost") "string")),
   ("timezone", .opt timezone_opt),
   ("beat", .sub beat_ns),
   ("broker", .sub broker_ns),
   ("cache", .sub cache_ns),
   ("cassandra", .sub cassandra_ns),
   ("chord", .sub chord_ns),
   ("couchbase", .sub couchbase_ns),
   ("email", .sub email_ns),
   ("mongodb", .sub mongodb_ns),
   ("event", .sub event_ns),
   ("redis", .sub redis_ns),
   ("result", .sub result_ns),
   ("riak", .sub riak_ns),
   ("security", .sub security_ns),
   ("sqlalchemy", .sub sqlalchemy_ns),
   ("task", .sub task_ns),
   ("worker", .sub worker_ns)]

/-- `flatten(d, ns='')`: the source is a breadth-first work-queue loop —
leaves of the dict at the head of the queue are yielded in declaration
order and every nested dict is appended to the queue as
`(ns + key + '_', value)` for processing after the current level.  On the
two-level trees this module declares, that order is: all top-level bare
options first, then, namespace by namespace in declaration order, each
namespace's options.  This definition produces exactly that sequence. -/
def flatten (d : List (String × NsEntry)) (ns : String) : List (String × Opt) :=
  (d.filterMap fun p =>
    match p.2 with
    | .opt o => Option.some (ns ++ p.1, o)
    | .sub _ => Option.none)
  ++ (d.flatMap fun p =>
    match p.2 with
    | .opt _ => []
    | .sub m => m.map fun q => (ns ++ p.1 ++ "_" ++ q.1, q.2))

/-- `DEFAULTS = {key: value.default for key, value in flatten(NAMESPACES)}`. -/
def DEFAULTS : List (String × ConfValue) :=
  (flatten NAMESPACES "").map fun p => (p.1, p.2.default)

/-- One `warn_deprecated(...)` emission of the deprecation scan: the
keyword arguments passed at the call site (`description='The {name}
setting'` — rendered here without the `repr` quotes — `deprecation`,
`removal` and `alternative='Use the {opt.alt} instead'`). -/
structure Warning where
  description : String
  deprecation : Option String
  removal : Option String
  alternative : String

/-- `find_deprecated_settings(source)`: walk `flatten(NAMESPACES)`; for
every option with a truthy `deprecate_by` or `remove_by` whose name is a
truthy attribute of `source`, emit a warning; finally return `source`.
The configuration source is embedded as its attribute-truthiness map
(`getattr(source, name, None)` being truthy), and warning emission as the
list of emitted warnings returned next to the unchanged source. -/
def find_deprecated_settings (source : String → Bool) :
    List Warning × (String → Bool) :=
  ((flatten NAMESPACES "").filterMap fun p =>
    if (p.2.deprecate_by.isSome || p.2.remove_by.isSome) && source p.1 then
      Option.some
        { description := "The " ++ p.1 ++ " setting",
          deprecation := p.2.deprecate_by,
          removal := p.2.remove_by,
          alternative := "Use the " ++ p.2.alt.getD "None" ++ " instead" }
    else Option.none,
   source)

/-- The heterogeneous third component of a `searchresult`: an `Option`
object, an entire namespace key-mapping, or a plain default value from
`DEFAULTS`. -/
inductive Found where
  | opt (o : Opt)
  | sub (m : List (String × Opt))
  | val (v : ConfValue)

/-- The third component of `searchresult(None, ns, keys)` in the
namespace-as-name branch: `keys` is whatever `NAMESPACES` maps `ns` to. -/
def Found.ofEntry : NsEntry → Found
  | .opt o => .opt o
  | .sub m => .sub m

/-- The `searchresult` namedtuple.  The field `namespace` is called `ns`
(`namespace` is a Lean keyword); `type` is called `found` after the
spec's name for it, since it holds the found object. -/
structure searchresult where
  ns : Option String
  key : String
  found : Found

/-- The `for ns, keys in items(NAMESPACES)` loop in `find`'s `except
KeyError` handler, applied to a pre-lowercased name `nm`: return
`searchresult(None, ns, keys)` on the first entry whose name equals `nm`
(case-insensitively), else `searchresult(ns, nm, keys[nm])` on the first
nested namespace containing the key `nm` (its own `KeyError` is caught
and the scan continues); `none` when the loop falls through. -/
def loopScan (nm : String) : List (String × NsEntry) → Option searchresult
  | [] => Option.none
  | (ns, keys) :: rest =>
    if lower ns = nm then Option.some ⟨Option.none, ns, Found.ofEntry keys⟩
    else
      match keys with
      | .sub m =>
        match assocFind nm m with
        | Option.some o => Option.some ⟨Option.some ns, nm, .opt o⟩
        | Option.none => loopScan nm rest
      | .opt _ => loopScan nm rest

/-- Strategies 2–4 of `find` — everything after the first `except
KeyError`: the namespace scan, then the qualified-name lookup in
`DEFAULTS`, whose `KeyError` escapes (the spec's `NotFoundError`). -/
def findFallback (name : String) : Except PyErr searchresult :=
  match loopScan (lower name) NAMESPACES with
  | Option.some r => .ok r
  | Option.none =>
    match assocFind (lower name) DEFAULTS with
    | Option.some v => .ok ⟨Option.none, lower name, .val v⟩
    | Option.none => .error .keyError

/-- `find(name, namespace='celery')`.  The `namespace` parameter is `nsp`
here.  First `namespace = namespace.lower()`; then the direct attempt
`searchresult(namespace, name.lower(), NAMESPACES[namespace][name.lower()])`:
a missing namespace or key raises `KeyError`, caught by the handler that
runs the fallback strategies — but when `NAMESPACES[namespace]` is a bare
`Option`, subscripting it raises an uncaught `TypeError`.  The
`@memoize` wrapper caches results by exact argument pair and is semantically
transparent for a pure function, so it is not modelled. -/
def find (name : String) (nsp : String) : Except PyErr searchresult :=
  match assocFind (lower nsp) NAMESPACES with
  | Option.some (.sub keys) =>
    match assocFind (lower name) keys with
    | Option.some o => .ok ⟨Option.some (lower nsp), lower name, .opt o⟩
    | Option.none => findFallback name
  | Option.some (.opt _) => .error .typeError
  | Option.none => findFallback name

/-- Resolution strategy 1 (direct namespace+key match) succeeds: the
lowercased namespace argument names a nested namespace containing the
lowercased name as a key. -/
def strat1 (name nsp : String) : Bool :=
  match assocFind (lower nsp) NAMESPACES with
  | Option.some (.sub m) => (assocFind (lower name) m).isSome
  | _ => false

/-- Resolution strategy 2 (namespace-as-name match) succeeds: some entry
of `NAMESPACES` has the lowercased name as its (lowercased) name. -/
def strat2 (name : String) : Bool :=
  NAMESPACES.any fun p => decide (lower p.1 = lower name)

/-- Does a tree entry contain `nm` as a key (bare options contain no keys)? -/
def nsHasKey (nm : String) : NsEntry → Bool
  | .sub m => (assocFind nm m).isSome
  | .opt _ => false

/-- Resolution strategy 3 (cross-namespace key match) succeeds: some
nested namespace contains the lowercased name as a key. -/
def strat3 (name : String) : Bool :=
  NAMESPACES.any fun p => nsHasKey (lower name) p.2

/-- Resolution strategy 4 (qualified-name fallback) succeeds: the
lowercased name is a key of the flattened `DEFAULTS` table. -/
def strat4 (name : String) : Bool :=
  (assocFind (lower name) DEFAULTS).isSome

/-- Some one of the four resolution strategies matches. -/
def matchesAny (name nsp : String) : Bool :=
  strat1 name nsp || strat2 name || strat3 name || strat4 name

/-- The lowercased namespace argument names a bare top-level `Option`
entry of `NAMESPACES` (e.g. `'timezone'`) — the input class on which the
direct-match subscript raises `TypeError`. -/
def flatEntry (nsp : String) : Bool :=
  match assocFind (lower nsp) NAMESPACES with
  | Option.some (.opt _) => true
  | _ => false

/-- Did an embedded call succeed (no exception)? -/
def exceptIsOk {ε α : Type} : Except ε α → Bool
  | .ok _ => true
  | .error _ => false

/-- The namespace scan falls through (returns nothing) exactly when no
entry name matches and no nested namespace contains the key. -/
theorem loopScan_eq_none_iff (nm : String) (l : List (String × NsEntry)) :
    loopScan nm l = Option.none ↔
      (l.any fun p => decide (lower p.1 = nm)) = false
      ∧ (l.any fun p => nsHasKey nm p.2) = false := by
  induction l with
  | nil => simp [loopScan]
  | cons hd tl ih =>
    obtain ⟨ns, keys⟩ := hd
    by_cases h : lower ns = nm
    · simp [loopScan, h]
    · cases keys with
      | opt o =>
        simp only [loopScan, if_neg h, List.any_cons, Bool.or_eq_false_iff]
        simp [nsHasKey, h, ih]
      | sub m =>
        cases hm : assocFind nm m with
        | none =>
          simp only [loopScan, if_neg h, hm, List.any_cons, Bool.or_eq_false_iff]
          simp [nsHasKey, h, hm, ih]
        | some o =>
          simp only [loopScan, if_neg h, hm, List.any_cons, Bool.or_eq_false_iff]
          simp [nsHasKey, hm]

/-- The fallback (strategies 2–4) fails exactly when strategies 2–4 all
fail, and its only failure is the `KeyError` from the `DEFAULTS` lookup. -/
theorem findFallback_characterization (name : String) :
    (findFallback name = .error .keyError
      ↔ (strat2 name || strat3 name || strat4 name) = false)
    ∧ ∀ e, findFallback name = .error e → e = .keyError := by
  have hscan := loopScan_eq_none_iff (lower name) NAMESPACES
  unfold findFallback
  cases hl : loopScan (lower name) NAMESPACES with
  | some r =>
    rw [hl] at hscan
    have h23 : ¬(strat2 name = false ∧ strat3 name = false) := by
      intro hf
      exact Option.some_ne_none r (hscan.mpr ⟨hf.1, hf.2⟩)
    constructor
    · simp only [Bool.or_eq_false_iff]
      constructor
      · intro hcontra; cases hcontra
      · intro hf; exact absurd ⟨hf.1.1, hf.1.2⟩ h23
    · intro e he; cases he
  | none =>
    rw [hl] at hscan
    obtain ⟨h2, h3⟩ := hscan.mp rfl
    cases hd : assocFind (lower name) DEFAULTS with
    | some v =>
      have h4 : strat4 name = true := by simp [strat4, hd]
      constructor
      · simp only [Bool.or_eq_false_iff]
        constructor
        · intro hcontra; cases hcontra
        · intro hf; rw [h4] at hf; exact absurd hf.2 (by simp)
      · intro e he; cases he
    | none =>
      have h4 : strat4 name = false := by simp [strat4, hd]
      constructor
      · constructor
        · intro _
          simp only [Bool.or_eq_false_iff]
          exact ⟨⟨h2, h3⟩, h4⟩
        · intro _; rfl
      · intro e he
        cases he
        rfl

/-- The fallback is invariant under pre-lowercasing its argument: every
use of the name inside it is lowercased. -/
theorem findFallback_lower (name : String) :
    findFallback (lower name) = findFallback name := by
  unfold findFallback
  rw [lower_idem]

/-- A top-level bare option of the tree is yielded by `flatten` under its
prefixed bare key. -/
theorem flatten_mem_top (d : List (String × NsEntry)) (pre k : String) (o : Opt)
    (h : (k, NsEntry.opt o) ∈ d) : (pre ++ k, o) ∈ flatten d pre :=
  List.mem_append_left _ (List.mem_filterMap.mpr ⟨(k, NsEntry.opt o), h, rfl⟩)

/-- An option nested in a namespace of the tree is yielded by `flatten`
under its underscore-joined qualified name. -/
theorem flatten_mem_sub (d : List (String × NsEntry)) (pre n k : String)
    (m : List (String × Opt)) (o : Opt)
    (h1 : (n, NsEntry.sub m) ∈ d) (h2 : (k, o) ∈ m) :
    (pre ++ n ++ "_" ++ k, o) ∈ flatten d pre :=
  List.mem_append_right _ (List.mem_flatMap.mpr ⟨(n, NsEntry.sub m), h1,
    List.mem_map.mpr ⟨(k, o), h2, rfl⟩⟩)

/-- The qualified names yielded by flattening the namespace tree. -/
def flatNames : List String := (flatten NAMESPACES "").map Prod.fst

set_option maxRecDepth 8000 in
/-- No two leaves of the namespace tree flatten to the same qualified
name. -/
theorem flatNames_nodup : flatNames.Nodup := by decide

/-- Claim C1, counterexample: the claim as stated is false for the
namespace argument `'timezone'` — the name
`'totally_unknown_setting'` matches none of the four resolution
strategies, yet `find` does not fail with the missing-key condition
(`NotFoundError`): an uncaught `TypeError` escapes instead, from
subscripting the bare `Option` stored at `NAMESPACES['timezone']`. -/
theorem find_typeError_escapes_despite_no_match :
    matchesAny "totally_unknown_setting" "timezone" = false
    ∧ find "totally_unknown_setting" "timezone" = .error .typeError :=
  ⟨by decide, rfl⟩

/-- Claim C1 (amended): for every setting name, and every namespace
argument whose lowercase form is not a bare top-level `Option` entry of
`NAMESPACES`, `find` fails with the missing-key condition
(`NotFoundError`, the escaping `KeyError`) exactly when the name matches
none of the four resolution strategies, and no other kind of failure
escapes `find`; in particular `find('totally_unknown_setting')` with the
default namespace fails this way.  (When the namespace argument names a
bare top-level entry, an uncaught `TypeError` escapes instead.) -/
theorem find_notFound_iff_no_strategy (name nsp : String)
    (h : flatEntry nsp = false) :
    (find name nsp = .error .keyError ↔ matchesAny name nsp = false)
    ∧ (exceptIsOk (find name nsp) = true ∨ find name nsp = .error .keyError) := by
  have hfb := findFallback_characterization name
  unfold flatEntry at h
  have main : find name nsp = findFallback name ∧ strat1 name nsp = false
      ∨ exceptIsOk (find name nsp) = true ∧ strat1 name nsp = true := by
    cases hns : assocFind (lower nsp) NAMESPACES with
    | none =>
      exact Or.inl ⟨by simp only [find, hns], by simp [strat1, hns]⟩
    | some entry =>
      cases entry with
      | opt o => rw [hns] at h; simp at h
      | sub keys =>
        cases hk : assocFind (lower name) keys with
        | none =>
          exact Or.inl ⟨by simp only [find, hns, hk], by simp [strat1, hns, hk]⟩
        | some o =>
          exact Or.inr ⟨by simp only [find, hns, hk, exceptIsOk], by simp [strat1, hns, hk]⟩
  rcases main with ⟨hfind, h1⟩ | ⟨hok, h1⟩
  · rw [hfind]
    constructor
    · rw [show matchesAny name nsp = (strat2 name || strat3 name || strat4 name) by
        simp [matchesAny, h1]]
      exact hfb.1
    · cases hh : findFallback name with
      | ok r => left; rfl
      | error e => right; rw [hfb.2 e hh]
  · have hm : matchesAny name nsp = true := by simp [matchesAny, h1]
    constructor
    · constructor
      · intro hcontra
        rw [hcontra] at hok; simp [exceptIsOk] at hok
      · intro hmf; rw [hm] at hmf; cases hmf
    · left; exact hok

/-- Witness for C1: the default namespace `'celery'` satisfies the
hypothesis, and at `find('totally_unknown_setting')` the conclusion
holds — evaluating, no strategy matches and the call fails with the
missing-key condition. -/
theorem find_notFound_iff_no_strategy_witness :
    flatEntry "celery" = false
    ∧ ((find "totally_unknown_setting" "celery" = .error .keyError
        ↔ matchesAny "totally_unknown_setting" "celery" = false)
      ∧ (exceptIsOk (find "totally_unknown_setting" "celery") = true
        ∨ find "totally_unknown_setting" "celery" = .error .keyError)) :=
  ⟨by decide, find_notFound_iff_no_strategy "totally_unknown_setting" "celery" (by decide)⟩

/-- Claim C2: `find('url')` with the default namespace `'celery'`
returns `searchresult(namespace='broker', key='url', broker url Option)`,
because `'celery'` is not a namespace of the tree (so no direct match),
no namespace declared before `'broker'` contains a key `'url'`, and
`'broker'` does contain one — the cross-namespace fallback with ties
broken by declaration order. -/
theorem find_url_cross_namespace_broker :
    find "url" "celery" = .ok ⟨Option.some "broker", "url", .opt broker_url_opt⟩
    ∧ assocFind "celery" NAMESPACES = Option.none
    ∧ ((NAMESPACES.takeWhile fun p => p.1 != "broker").all
        fun p => !nsHasKey "url" p.2) = true
    ∧ nsHasKey "url" (NsEntry.sub broker_ns) = true :=
  ⟨rfl, rfl, by decide, rfl⟩

/-- Claim C3, counterexample: the option registered at
`NAMESPACES['accept_content']` has type `'list'`, which is not a key of
the coercion table `Option.typemap` — refuting "every registered Option
has a type that is a key of the coercion-type table". -/
theorem registered_list_type_not_in_typemap :
    assocFind "accept_content" NAMESPACES = Option.some (NsEntry.opt accept_content_opt)
    ∧ accept_content_opt.type = "list"
    ∧ assocFind accept_content_opt.type typemap = Option.none :=
  ⟨rfl, rfl, rfl⟩

set_option maxRecDepth 8000 in
/-- Claim C3 (amended): every Option registered in the namespace tree has
a type that is a key of `Option.typemap` or one of the two tags `'list'`
and `'str'`, which are absent from the table; and construction rejects
nothing — an Option with an unknown type is built without complaint, the
failure (`KeyError`) surfacing only when `to_python` is invoked. -/
theorem registered_types_in_typemap_or_list_str :
    ((flatten NAMESPACES "").all fun p =>
      (assocFind p.2.type typemap).isSome || p.2.type == "list" || p.2.type == "str") = true
    ∧ (mkOpt .none "no_such_type").type = "no_such_type"
    ∧ Opt.to_python (mkOpt .none "no_such_type") .none = .error .keyError :=
  ⟨by decide, rfl, rfl⟩

/-- Claim C4: `to_python` dispatches on the declared type through
`typemap`, whose keys are exactly `string`, `int`, `float`, `any`,
`bool`, `dict` and `tuple`, each applying the corresponding coercion —
but there is no `list` key, so for an Option of type `'list'` (such as
the registered `accept_content` option) `to_python` raises `KeyError`
instead of applying the sequence cast the spec describes. -/
theorem to_python_dispatch_and_list_keyError :
    typemap.map Prod.fst = ["string", "int", "float", "any", "bool", "dict", "tuple"]
    ∧ (∀ d v, (mkOpt d "string").to_python v = pyString v)
    ∧ (∀ d v, (mkOpt d "int").to_python v = pyInt v)
    ∧ (∀ d v, (mkOpt d "float").to_python v = pyFloat v)
    ∧ (∀ d v, (mkOpt d "any").to_python v = .ok v)
    ∧ (∀ d v, (mkOpt d "bool").to_python v = strtobool v)
    ∧ (∀ d v, (mkOpt d "dict").to_python v = pyDict v)
    ∧ (∀ d v, (mkOpt d "tuple").to_python v = pyTuple v)
    ∧ (∀ d v, (mkOpt d "list").to_python v = .error .keyError)
    ∧ accept_content_opt.to_python DEFAULT_ACCEPT_CONTENT = .error .keyError :=
  ⟨rfl, fun _ _ => rfl, fun _ _ => rfl, fun _ _ => rfl, fun _ _ => rfl, fun _ _ => rfl,
   fun _ _ => rfl, fun _ _ => rfl, fun _ _ => rfl, rfl⟩

/-- Claim C5: `find('broker_url')` with the default namespace returns
`searchresult(namespace=None, key='broker_url', value=DEFAULTS['broker_url'])`
— the default of the broker url Option — via the qualified-name
fallback: no direct match, `'broker_url'` is not a namespace name, and
no namespace contains it as a key. -/
theorem find_broker_url_qualified_fallback :
    find "broker_url" "celery" = .ok ⟨Option.none, "broker_url", .val broker_url_opt.default⟩
    ∧ assocFind "broker_url" DEFAULTS = Option.some broker_url_opt.default
    ∧ strat1 "broker_url" "celery" = false
    ∧ strat2 "broker_url" = false
    ∧ strat3 "broker_url" = false :=
  ⟨rfl, rfl, rfl, by decide, by decide⟩

/-- Claim C6: `find('broker')` with the default namespace `'celery'`
returns `searchresult(namespace=None, key='broker', value=the entire
broker key-mapping)` via the namespace-as-name strategy: `'broker'`
names a namespace of the tree and the direct-match strategy fails
(`'celery'` is not a namespace, so `'broker'` is a key under nothing). -/
theorem find_broker_namespace_as_name :
    find "broker" "celery" = .ok ⟨Option.none, "broker", .sub broker_ns⟩
    ∧ assocFind "broker" NAMESPACES = Option.some (NsEntry.sub broker_ns)
    ∧ strat1 "broker" "celery" = false :=
  ⟨rfl, rfl, rfl⟩

/-- Claim C7: the flattening of the namespace tree yields, for every
top-level bare Option, the pair `(key, option)`, and for every Option
nested in a namespace, the pair `(namespace_key, option)`; the yielded
names contain no duplicate, so each leaf is yielded exactly once (the
count of its qualified name among the yielded names is one). -/
theorem flatten_yields_each_leaf_once :
    flatNames.Nodup
    ∧ (∀ k o, (k, NsEntry.opt o) ∈ NAMESPACES →
        (k, o) ∈ flatten NAMESPACES "" ∧ flatNames.count k = 1)
    ∧ (∀ n m k o, (n, NsEntry.sub m) ∈ NAMESPACES → (k, o) ∈ m →
        (n ++ "_" ++ k, o) ∈ flatten NAMESPACES "" ∧ flatNames.count (n ++ "_" ++ k) = 1) := by
  refine ⟨flatNames_nodup, ?_, ?_⟩
  · intro k o h
    have hm : (k, o) ∈ flatten NAMESPACES "" := flatten_mem_top NAMESPACES "" k o h
    exact ⟨hm, List.count_eq_one_of_mem flatNames_nodup (List.mem_map.mpr ⟨(k, o), hm, rfl⟩)⟩
  · intro n m k o h1 h2
    have hm : (n ++ "_" ++ k, o) ∈ flatten NAMESPACES "" :=
      flatten_mem_sub NAMESPACES "" n k m o h1 h2
    exact ⟨hm, List.count_eq_one_of_mem flatNames_nodup
      (List.mem_map.mpr ⟨(n ++ "_" ++ k, o), hm, rfl⟩)⟩

/-- Witness for C7: at the concrete leaves `accept_content` (a top-level
bare Option, the first tree entry) and `broker.url` (nested), flatten
yields each exactly once, under the qualified names `accept_content`
and `broker_url`. -/
theorem flatten_yields_each_leaf_once_witness :
    (("accept_content", accept_content_opt) ∈ flatten NAMESPACES ""
      ∧ flatNames.count "accept_content" = 1)
    ∧ (("broker_url", broker_url_opt) ∈ flatten NAMESPACES ""
      ∧ flatNames.count "broker_url" = 1) :=
  ⟨flatten_yields_each_leaf_once.2.1 _ _ (List.Mem.head _),
   flatten_yields_each_leaf_once.2.2 _ _ _ _
     (.tail _ (.tail _ (.tail _ (.tail _ (.tail _ (.tail _ (.tail _ (.tail _ (.head _)))))))))
     (List.Mem.head _)⟩

/-- Claim C8: `find` is case-insensitive in both arguments — every call
returns the same outcome as the call on the lowercased arguments, since
the resolver lowercases internally before each lookup. -/
theorem find_case_insensitive (name nsp : String) :
    find name nsp = find (lower name) (lower nsp) := by
  unfold find
  rw [lower_idem, lower_idem, findFallback_lower]

/-- Claim C9: the deprecation scan returns its configuration-source
argument itself, unchanged, whatever the source — however many warnings
were emitted; warning emission (the first component) is its only
effect. -/
theorem find_deprecated_settings_returns_source (source : String → Bool) :
    (find_deprecated_settings source).2 = source := rfl

/-- Claim C10: whenever the namespace argument lowercases to the name of
a bare top-level `Option` entry of `NAMESPACES` (such as `'timezone'`),
`find` raises `TypeError` — for every name — because the direct-match
step subscripts the `Option` object, and that failure is not the
`KeyError` its handler catches, so the fallback strategies never run. -/
theorem find_flat_entry_typeError (name nsp : String) (h : flatEntry nsp = true) :
    find name nsp = .error .typeError := by
  unfold flatEntry at h
  cases hns : assocFind (lower nsp) NAMESPACES with
  | none => rw [hns] at h; simp at h
  | some entry =>
    cases entry with
    | opt o => simp only [find, hns]
    | sub m => rw [hns] at h; simp at h

/-- Witness for C10: `'TIMEZONE'` lowercases to the bare top-level entry
`'timezone'`, and `find('url', 'TIMEZONE')` fails with `TypeError`. -/
theorem find_flat_entry_typeError_witness :
    flatEntry "TIMEZONE" = true ∧ find "url" "TIMEZONE" = .error .typeError :=
  ⟨by decide, find_flat_entry_typeError "url" "TIMEZONE" (by decide)⟩
